import Mathlib

/-
Verification of the MySQL workflow node (node-drop/mysql).

Shallow embedding of:
  - src/nodes/mysql.node.js      (the `execute` batch executor and its
    per-operation statement builders),
  - src/credentials/mysqlDb.credentials.js (the credential `test` routine).

JavaScript values flowing through item records are modelled by `JVal`
(with an explicit `undef` for JS `undefined`); JS objects are ordered
association lists; the mysql2 driver is modelled as a pure function from
the index of the `execute` call and the statement/parameter pair to either
a structured error or a reply.
-/

namespace MySQLNode

/-- A JavaScript value as it appears in item records and query parameters. -/
inductive JVal where
  | undef : JVal
  | null : JVal
  | bool (b : Bool) : JVal
  | num (n : Int) : JVal
  | str (s : String) : JVal
  | arr (elems : List JVal) : JVal
  | obj (fields : List (String × JVal)) : JVal

/-- A JS object: an ordered record of key-value fields (`item.json`). -/
abbrev Record := List (String × JVal)

/-- First-match field lookup in a JS object (keys are unique in practice). -/
def getField : Record → String → Option JVal
  | [], _ => none
  | (k', v) :: rest, k => if k' = k then some v else getField rest k

/-- JS property assignment: override in place if the key exists, else append. -/
def setField : Record → String → JVal → Record
  | [], k, v => [(k, v)]
  | (k', v') :: rest, k, v =>
    if k' = k then (k', v) :: rest else (k', v') :: setField rest k v

/-- JS object spread `{...base, ...upd}`: later keys override earlier ones,
keeping the original position of overridden keys. -/
def mergeObj (base upd : Record) : Record :=
  upd.foldl (fun acc kv => setField acc kv.1 kv.2) base

/-- JS truthiness of a value. -/
def jsTruthy : JVal → Bool
  | .undef => false
  | .null => false
  | .bool b => b
  | .num n => n != 0
  | .str s => s != ""
  | .arr _ => true
  | .obj _ => true

/-- JS `String.prototype.trim`: strip whitespace from both ends. -/
def jsTrim (s : String) : String :=
  ⟨((s.data.dropWhile Char.isWhitespace).reverse.dropWhile Char.isWhitespace).reverse⟩

/-- JS `String.prototype.split(",")` on the underlying character list;
`"".split(",")` is `[""]` and separators at the ends produce empty tokens. -/
def splitOnCommaChars : List Char → List (List Char)
  | [] => [[]]
  | c :: rest =>
    if c = ',' then [] :: splitOnCommaChars rest
    else
      match splitOnCommaChars rest with
      | [] => [[c]]
      | g :: gs => (c :: g) :: gs

/-- The marshalling pipeline: split the string on commas, trim each token. -/
def splitTrim (s : String) : List String :=
  (splitOnCommaChars s.data).map fun cs => jsTrim ⟨cs⟩

/-- Marshalling of a comma-separated "…Params" field, with the surrounding
`if (paramsStr)` truthiness guard of the source: empty string gives `[]`. -/
def marshalParams (s : String) : List JVal :=
  if s = "" then [] else (splitTrim s).map JVal.str

/-! ## Statement builders (mysql.node.js `execute`, per-operation cases) -/

/-- Select statement and parameters (mysql.node.js lines 348-363):
`SELECT ${columns} FROM \x60${table}\x60` plus optional WHERE / ORDER BY /
LIMIT parts.  `columns` defaults to `*` via `|| "*"`; the limit is appended
only when `returnAll` is false and the limit value is truthy (non-zero). -/
def buildSelect (table columns whereC whereParams orderBy : String)
    (returnAll : Bool) (limit : Int) : String × List JVal :=
  let cols := if columns = "" then "*" else columns
  let q0 := "SELECT " ++ cols ++ " FROM `" ++ table ++ "`"
  let (q1, params) :=
    if whereC = "" then (q0, ([] : List JVal))
    else (q0 ++ " WHERE " ++ whereC, marshalParams whereParams)
  let q2 := if orderBy = "" then q1 else q1 ++ " ORDER BY " ++ orderBy
  let q3 :=
    if returnAll then q2
    else if limit = 0 then q2 else q2 ++ " LIMIT " ++ toString limit
  (q3, params)

/-- Insert statement and parameters (mysql.node.js lines 391-398). -/
def buildInsert (table : String) (data : Record) : String × List JVal :=
  let columns := data.map Prod.fst
  let values := data.map Prod.snd
  let placeholders := String.intercalate ", " (values.map fun _ => "?")
  ("INSERT INTO `" ++ table ++ "` (`" ++ String.intercalate "`, `" columns ++
     "`) VALUES (" ++ placeholders ++ ")",
   values)

/-- Update statement and parameters (mysql.node.js lines 457-472):
data values first, then the marshalled where parameters. -/
def buildUpdate (table : String) (data : Record) (whereC whereParams : String) :
    String × List JVal :=
  let columns := data.map Prod.fst
  let values := data.map Prod.snd
  let setClause := String.intercalate ", " (columns.map fun c => "`" ++ c ++ "` = ?")
  ("UPDATE `" ++ table ++ "` SET " ++ setClause ++ " WHERE " ++ whereC,
   values ++ marshalParams whereParams)

/-- Delete statement and parameters (mysql.node.js lines 515-519). -/
def buildDelete (table whereC whereParams : String) : String × List JVal :=
  ("DELETE FROM `" ++ table ++ "` WHERE " ++ whereC, marshalParams whereParams)

/-! ## Driver model -/

/-- Field metadata returned by the driver alongside a row set. -/
structure FieldMeta where
  name : String
  ftype : Int
  table : String

/-- The first component of a mysql2 `execute` reply: either an array of rows
(row-returning statements) or an OkPacket (writes). -/
inductive RowsResult where
  | rowSet (rows : List Record)
  | okPacket (affectedRows changedRows insertId : Int)

/-- A full mysql2 `execute` reply `[rows, fields]`. -/
structure QueryReply where
  rows : RowsResult
  fields : Option (List FieldMeta)

/-- A structured JS error: `message`, optional machine-readable `code`
(driver errors carry one, plain `new Error(...)` does not) and the
`toString()` rendering used for `errorDetails`. -/
structure JsError where
  message : String
  code : Option String
  details : String

/-- A plain `new Error(msg)` thrown by the node itself. -/
def mkNodeError (msg : String) : JsError :=
  ⟨msg, none, "Error: " ++ msg⟩

/-- The external database pool: a map from the index of the `pool.execute`
call within one invocation and the statement/parameter pair to a reply or an
error.  Indexing by call count lets distinct calls in one batch succeed or
fail independently, as a stateful database does. -/
abbrev Driver := Nat → String → List JVal → Except JsError QueryReply

/-- One recorded `pool.execute` call: statement text and positional params. -/
abbrev Stmt := String × List JVal

/-! ## Result shaping (mysql.node.js, per-operation `results.push`) -/

/-- The affectedRows property of a reply (undefined on a row set). -/
def affectedRowsVal : RowsResult → JVal
  | .rowSet _ => .undef
  | .okPacket a _ _ => .num a

/-- The insertId property of a reply (undefined on a row set). -/
def insertIdVal : RowsResult → JVal
  | .rowSet _ => .undef
  | .okPacket _ _ i => .num i

/-- The changedRows property of a reply (undefined on a row set). -/
def changedRowsVal : RowsResult → JVal
  | .rowSet _ => .undef
  | .okPacket _ c _ => .num c

/-- An OkPacket seen as a JS object value. -/
def okPacketObj (a c i : Int) : JVal :=
  .obj [("affectedRows", .num a), ("changedRows", .num c), ("insertId", .num i)]

/-- The rows reply used directly as a value (select / update fetch). -/
def rowsAsVal : RowsResult → JVal
  | .rowSet rs => .arr (rs.map JVal.obj)
  | .okPacket a c i => okPacketObj a c i

/-- The rows reply as an array: a row set stays as is, an OkPacket is wrapped in a one-element array (executeQuery). -/
def rowsArrayVal : RowsResult → JVal
  | .rowSet rs => .arr (rs.map JVal.obj)
  | .okPacket a c i => .arr [okPacketObj a c i]

/-- The executeQuery rowCount: the row-set length, or 1 for an OkPacket. -/
def rowCountVal : RowsResult → JVal
  | .rowSet rs => .num rs.length
  | .okPacket _ _ _ => .num 1

/-- The select rowCount: the length property of rows, undefined on an OkPacket. -/
def rowsLengthVal : RowsResult → JVal
  | .okPacket _ _ _ => .undef
  | .rowSet rs => .num rs.length

/-- The executeQuery field metadata: each field mapped to its name, type and table, undefined when the driver returned none. -/
def fieldsVal : Option (List FieldMeta) → JVal
  | none => .undef
  | some fs => .arr (fs.map fun f =>
      .obj [("name", .str f.name), ("type", .num f.ftype), ("table", .str f.table)])

/-- The code property of an error shaped into the output record, undefined when absent. -/
def codeVal : Option String → JVal
  | none => .undef
  | some c => .str c

/-- The continue-on-fail error record fields (mysql.node.js lines 540-548). -/
def errorFields (e : JsError) : List (String × JVal) :=
  [("error", .bool true), ("errorMessage", .str e.message),
   ("errorCode", codeVal e.code), ("errorDetails", .str e.details)]

/-! ## Operations and the per-item executor -/

/-- The operation selector together with its declarative fields.  The `data`
field of insert/update carries the outcome of `JSON.parse` on the `data`
parameter (the parser itself is external): either the parsed object or the
parse error message. -/
inductive Op where
  | executeQuery (query queryParams : String)
  | select (table columns whereC whereParams orderBy : String)
      (returnAll : Bool) (limit : Int)
  | insert (table : String) (data : Except String Record) (returnFields : String)
  | update (table : String) (data : Except String Record)
      (whereC whereParams returnFields : String)
  | delete (table whereC whereParams : String)

/-- The returnFields parameter with its falsy default: an empty string becomes "*". -/
def normReturnFields (rf : String) : String :=
  if rf = "" then "*" else rf

/-- The post-insert fetch statement (mysql.node.js line 411). -/
def insertFetchStmt (table rf : String) : String :=
  "SELECT " ++ rf ++ " FROM `" ++ table ++ "` WHERE id = ?"

/-- The post-update fetch statement (mysql.node.js line 480). -/
def updateFetchStmt (table rf whereC : String) : String :=
  "SELECT " ++ rf ++ " FROM `" ++ table ++ "` WHERE " ++ whereC

/-- One iteration of the batch loop body, minus the merging of `item.json`
(which every `results.push` performs identically and which `runItems` below
applies).  Returns the list of `pool.execute` calls made (in order) and
either the operation-specific output fields or the thrown error.  `n` is the
index of the next `pool.execute` call of this invocation. -/
def processItem (d : Driver) (n : Nat) : Op → List Stmt × Except JsError (List (String × JVal))
  | .executeQuery query queryParams =>
    let params := marshalParams queryParams
    (match d n query params with
     | .error e => ([(query, params)], .error e)
     | .ok rep =>
       ([(query, params)], .ok
         [("rows", rowsArrayVal rep.rows), ("rowCount", rowCountVal rep.rows),
          ("affectedRows", affectedRowsVal rep.rows),
          ("insertId", insertIdVal rep.rows), ("fields", fieldsVal rep.fields)]))
  | .select table columns whereC whereParams orderBy returnAll limit =>
    let sp := buildSelect table columns whereC whereParams orderBy returnAll limit
    (match d n sp.1 sp.2 with
     | .error e => ([sp], .error e)
     | .ok rep =>
       ([sp], .ok [("rows", rowsAsVal rep.rows), ("rowCount", rowsLengthVal rep.rows)]))
  | .insert table data returnFields =>
    let rf := normReturnFields returnFields
    (match data with
     | .error msg => ([], .error (mkNodeError ("Invalid JSON data: " ++ msg)))
     | .ok dataObj =>
       let sp := buildInsert table dataObj
       match d n sp.1 sp.2 with
       | .error e => ([sp], .error e)
       | .ok rep =>
         let base : Record :=
           [("insertId", insertIdVal rep.rows), ("affectedRows", affectedRowsVal rep.rows)]
         if rf != "*" || jsTruthy (insertIdVal rep.rows) then
           let fparams := [insertIdVal rep.rows]
           match d (n + 1) (insertFetchStmt table rf) fparams with
           | .error _ =>
             -- fetch failure is logged and swallowed; insert result kept
             ([sp, (insertFetchStmt table rf, fparams)], .ok
               [("inserted", .obj base), ("rowCount", affectedRowsVal rep.rows)])
           | .ok rep2 =>
             let insertedRow :=
               match rep2.rows with
               | .rowSet (r :: _) => mergeObj base r
               | _ => base
             ([sp, (insertFetchStmt table rf, fparams)], .ok
               [("inserted", .obj insertedRow), ("rowCount", affectedRowsVal rep.rows)])
         else
           ([sp], .ok [("inserted", .obj base), ("rowCount", affectedRowsVal rep.rows)]))
  | .update table data whereC whereParams returnFields =>
    let rf := normReturnFields returnFields
    if whereC = "" then
      ([], .error (mkNodeError
        "WHERE clause is required for UPDATE operation to prevent accidental updates"))
    else
      match data with
      | .error msg => ([], .error (mkNodeError ("Invalid JSON data: " ++ msg)))
      | .ok dataObj =>
        let sp := buildUpdate table dataObj whereC whereParams
        match d n sp.1 sp.2 with
        | .error e => ([sp], .error e)
        | .ok rep =>
          match rep.rows with
          | .okPacket a c _ =>
            if a > 0 then
              let fparams := marshalParams whereParams
              match d (n + 1) (updateFetchStmt table rf whereC) fparams with
              | .error _ =>
                -- fetch failure is logged and swallowed; updatedRows stays []
                ([sp, (updateFetchStmt table rf whereC, fparams)], .ok
                  [("updated", .arr []), ("rowCount", .num a), ("changedRows", .num c)])
              | .ok rep2 =>
                ([sp, (updateFetchStmt table rf whereC, fparams)], .ok
                  [("updated", rowsAsVal rep2.rows), ("rowCount", .num a),
                   ("changedRows", .num c)])
            else
              ([sp], .ok
                [("updated", .arr []), ("rowCount", .num a), ("changedRows", .num c)])
          | .rowSet _ =>
            -- affectedRows is undefined on a row set; `undefined > 0` is false
            ([sp], .ok
              [("updated", .arr []), ("rowCount", .undef), ("changedRows", .undef)])
  | .delete table whereC whereParams =>
    if whereC = "" then
      ([], .error (mkNodeError
        "WHERE clause is required for DELETE operation to prevent accidental deletion"))
    else
      let sp := buildDelete table whereC whereParams
      match d n sp.1 sp.2 with
      | .error e => ([sp], .error e)
      | .ok rep =>
        ([sp], .ok [("deleted", .bool true), ("rowCount", affectedRowsVal rep.rows)])

/-! ## The batch loop -/

/-- The `for (const item of itemsToProcess)` loop: per item, merge the
operation fields (or, under continue-on-fail, the error fields) into the
item's own fields; without continue-on-fail the first error aborts the rest
of the batch.  The first component collects every `pool.execute` call. -/
def runItems (d : Driver) (op : Op) (continueOnFail : Bool) :
    Nat → List Record → List Stmt × Except JsError (List Record)
  | _, [] => ([], .ok [])
  | n, item :: rest =>
    let p := processItem d n op
    match p.2 with
    | .ok fields =>
      let r2 := runItems d op continueOnFail (n + p.1.length) rest
      (p.1 ++ r2.1, r2.2.map fun rs => mergeObj item fields :: rs)
    | .error e =>
      if continueOnFail then
        let r2 := runItems d op continueOnFail (n + p.1.length) rest
        (p.1 ++ r2.1, r2.2.map fun rs => mergeObj item (errorFields e) :: rs)
      else
        (p.1, .error e)

/-- The processed batch: the input items, or one synthetic empty item when the batch is empty (mysql.node.js line 244). -/
def itemsToProcess (items : List Record) : List Record :=
  if items.isEmpty then [[]] else items

/-- The observable outcome of one executor invocation: the `pool.execute`
calls made, the returned records or propagated error, and whether
`pool.end()` ran (the source closes the pool in a `finally`, on every path). -/
structure RunOutcome where
  trace : List Stmt
  outcome : Except JsError (List Record)
  poolClosed : Bool

/-- The executor batch phase (mysql.node.js lines 239-560, after credential
resolution and pool creation). -/
def execute (d : Driver) (op : Op) (continueOnFail : Bool) (items : List Record) :
    RunOutcome :=
  let r := runItems d op continueOnFail 0 (itemsToProcess items)
  ⟨r.1, r.2, true⟩

/-! ## Credential resolution (mysql.node.js lines 252-300) -/

/-- The stored credential record; each property may be absent. -/
structure Credentials where
  host : Option String
  port : Option Int
  database : Option String
  user : Option String
  password : Option String
  ssl : Option Bool
  connectionTimeout : Option Int

/-- JS falsiness of an optional string property (`undefined` or `""`). -/
def jsFalsyStr : Option String → Bool
  | none => true
  | some s => s == ""

/-- The connection parameters handed to `mysql.createPool`. -/
structure ConnParams where
  host : String
  port : Int
  database : Option String
  user : Option String
  password : Option String
  ssl : Bool
  connectTimeout : Int

/-- The port with its falsy default: absent or zero becomes 3306. -/
def jsPortOr3306 : Option Int → Int
  | some p => if p = 0 then 3306 else p
  | none => 3306

/-- The executor's credential resolution (mysql.node.js lines 255-284): only
`credentials` and `credentials.host` are truthiness-checked; `database`,
`user` and `password` flow through unexamined.  The thrown message is the
inner error re-wrapped by the catch block. -/
def resolveExecuteCredentials (settingsTimeout : Option Int)
    (creds : Option Credentials) : Except JsError ConnParams :=
  match creds with
  | none =>
    .error (mkNodeError
      "Failed to get credentials: MySQL credentials are required. Please select credentials in the Authentication field.")
  | some c =>
    if jsFalsyStr c.host then
      .error (mkNodeError
        "Failed to get credentials: MySQL credentials are required. Please select credentials in the Authentication field.")
    else
      .ok { host := c.host.getD ""
            port := jsPortOr3306 c.port
            database := c.database
            user := c.user
            password := c.password
            ssl := c.ssl.getD false
            connectTimeout := settingsTimeout.getD (c.connectionTimeout.getD 10000) }

/-- The whole node `execute` entry point: credential resolution, then pool
creation and the batch phase.  `poolCreated` records whether
`mysql.createPool` was reached. -/
structure NodeRun where
  poolCreated : Bool
  trace : List Stmt
  outcome : Except JsError (List Record)
  poolClosed : Bool

/-- mysql.node.js lines 239-561: a credential failure propagates before the
pool exists; otherwise the batch phase runs with the pool. -/
def executeNode (d : Driver) (op : Op) (continueOnFail : Bool)
    (settingsTimeout : Option Int) (creds : Option Credentials)
    (items : List Record) : NodeRun :=
  match resolveExecuteCredentials settingsTimeout creds with
  | .error e => ⟨false, [], .error e, false⟩
  | .ok _ =>
    let r := execute d op continueOnFail items
    ⟨true, r.trace, r.outcome, r.poolClosed⟩

/-! ## Credential tester (mysqlDb.credentials.js `test`) -/

/-- The tester's result object. -/
structure TestResult where
  success : Bool
  message : String

/-- How the single ad-hoc connection behaves: connecting fails, or the
liveness query fails after connecting, or it returns rows. -/
inductive TestDriver where
  | connectFail (e : JsError)
  | queryFail (e : JsError)
  | queryOk (rows : List Record)

/-- Observable outcome of one credential test: the returned result, whether
a connection was attempted, and whether `connection.end()` ran. -/
structure CredTestRun where
  result : TestResult
  connectAttempted : Bool
  connectionEnded : Bool

/-- Template-string rendering of an optional credential property. -/
def showOptStr : Option String → String
  | some s => s
  | none => "undefined"

/-- Rendering of a JS value inside a template string (top-level cases; the
liveness query only ever interpolates the `version` column). -/
def showJVal : JVal → String
  | .undef => "undefined"
  | .null => "null"
  | .bool b => if b then "true" else "false"
  | .num n => toString n
  | .str s => s
  | .arr _ => ""
  | .obj _ => "[object Object]"

/-- The error-code classification chain of the tester's catch block
(mysqlDb.credentials.js lines 126-186). -/
def classifyTestError (data : Credentials) (e : JsError) : TestResult :=
  if e.code = some "ECONNREFUSED" then
    ⟨false, "Cannot connect to database server at " ++ showOptStr data.host ++ ":" ++
      toString (jsPortOr3306 data.port) ++ ". Connection refused."⟩
  else if e.code = some "ENOTFOUND" then
    ⟨false, "Cannot resolve host: " ++ showOptStr data.host ++ ". Please check the hostname."⟩
  else if e.code = some "ETIMEDOUT" then
    ⟨false, "Connection timeout to " ++ showOptStr data.host ++ ":" ++
      toString (jsPortOr3306 data.port) ++ ". Please check firewall and network settings."⟩
  else if e.code = some "ER_ACCESS_DENIED_ERROR" then
    ⟨false, "Authentication failed. Invalid username or password."⟩
  else if e.code = some "ER_BAD_DB_ERROR" then
    ⟨false, "Database \"" ++ showOptStr data.database ++ "\" does not exist."⟩
  else if e.code = some "ER_DBACCESS_DENIED_ERROR" then
    ⟨false, "Authorization failed. User does not have access to this database."⟩
  else if e.code = some "PROTOCOL_CONNECTION_LOST" then
    ⟨false, "Connection lost to MySQL server. Please check server status."⟩
  else if e.code = some "ER_CON_COUNT_ERROR" then
    ⟨false, "Too many connections to MySQL server. Try again later."⟩
  else if e.code = some "ER_HOST_IS_BLOCKED" then
    ⟨false, "Host is blocked due to many connection errors. Contact your database administrator."⟩
  else
    ⟨false, "Connection failed: " ++ (if e.message = "" then "Unknown error" else e.message)⟩

/-- mysqlDb.credentials.js lines 75-187: validate the four required fields,
then connect, run the liveness query, and classify any failure.  The
connection is ended on every path that opened one. -/
def credTest (data : Credentials) (drv : TestDriver) : CredTestRun :=
  if jsFalsyStr data.host || jsFalsyStr data.database ||
      jsFalsyStr data.user || jsFalsyStr data.password then
    ⟨⟨false, "Host, database, user, and password are required"⟩, false, false⟩
  else
    match drv with
    | .connectFail e => ⟨classifyTestError data e, true, false⟩
    | .queryFail e => ⟨classifyTestError data e, true, true⟩
    | .queryOk rows =>
      match rows with
      | [] => ⟨⟨true, "Connection successful"⟩, true, true⟩
      | r :: _ =>
        ⟨⟨true, "Connected successfully to MySQL " ++
            showJVal ((getField r "version").getD .undef) ++ " at " ++
            showOptStr data.host ++ ":" ++ toString (jsPortOr3306 data.port) ++ "/" ++
            showOptStr data.database⟩,
         true, true⟩

/-! ## Derived views of a batch run -/

/-- The per-item outcomes of a batch, in order, with the same `pool.execute`
call numbering as `runItems` under continue-on-fail. -/
def runResults (d : Driver) (op : Op) : Nat → List Record → List (Except JsError (List (String × JVal)))
  | _, [] => []
  | n, _ :: rest =>
    (processItem d n op).2 :: runResults d op (n + (processItem d n op).1.length) rest

/-- How many per-item outcomes are failures. -/
def failureCount (l : List (Except JsError (List (String × JVal)))) : Nat :=
  l.countP fun r => match r with | .error _ => true | .ok _ => false

/-- The `pool.execute` calls a batch issues (continue-on-fail numbering). -/
def batchTrace (d : Driver) (op : Op) : Nat → List Record → List Stmt
  | _, [] => []
  | n, _ :: rest =>
    (processItem d n op).1 ++ batchTrace d op (n + (processItem d n op).1.length) rest

/-- The index of the next `pool.execute` call after a batch. -/
def nextCallIndex (d : Driver) (op : Op) : Nat → List Record → Nat
  | n, [] => n
  | n, _ :: rest => nextCallIndex d op (n + (processItem d n op).1.length) rest

/-- Whether an output record carries `error: true`. -/
def hasErrorTrue (r : Record) : Bool :=
  match getField r "error" with
  | some (JVal.bool true) => true
  | _ => false

/-- Whether an `Except` value is a success. -/
def exceptOk {α β : Type} : Except α β → Bool
  | .ok _ => true
  | .error _ => false

/-! ## Concrete drivers and inputs used in closed instances -/

/-- A driver whose second and later calls fail (used for claim C4's
counterexample: the first item succeeds, the second fails). -/
def C4ceDriver : Driver := fun n _ _ =>
  if n = 0 then .ok ⟨.okPacket 1 0 0, none⟩
  else .error ⟨"boom", none, "Error: boom"⟩

/-- A two-item batch whose first item already carries `error: true`. -/
def C4ceItems : List Record := [[("error", JVal.bool true)], []]

/-- A driver whose first call fails and later calls succeed. -/
def C4wDriver : Driver := fun n _ _ =>
  if n = 0 then .error ⟨"dup", none, "Error: dup"⟩
  else .ok ⟨.okPacket 1 0 0, none⟩

/-- A driver whose primary write succeeds with an OkPacket and whose
follow-up fetch fails (claim C5's witness). -/
def C5wDriver : Driver := fun n _ _ =>
  if n = 0 then .ok ⟨.okPacket 2 1 7, none⟩
  else .error ⟨"read-back failed", none, "Error: read-back failed"⟩

/-- Credentials with a host but no database, user present, password
present - except the database (claim C6's counterexample). -/
def C6ceCreds : Credentials := ⟨some "h", none, none, some "u", some "p", none, none⟩

/-- A driver that always fails (never actually consulted by C6's
counterexample conclusion). -/
def C6ceDriver : Driver := fun _ _ _ => .error ⟨"x", none, "Error: x"⟩

/-- Entirely empty credentials (claim C6's witness). -/
def C6wCreds : Credentials := ⟨none, none, none, none, none, none, none⟩

/-- Fully populated credential data (claim C8's witness). -/
def C8wData : Credentials := ⟨some "h", some 3306, some "db", some "u", some "p", none, none⟩

/-- A driver error with the access-denied code (claim C8's witness). -/
def C8wErr : JsError :=
  ⟨"Access denied for user", some "ER_ACCESS_DENIED_ERROR", "Error: Access denied for user"⟩

/-- A driver that always answers a delete with one affected row (claim C9's
witness). -/
def C9wDriver : Driver := fun _ _ _ => .ok ⟨.okPacket 1 0 0, none⟩

/-! ## Lemmas about records and merging -/

theorem getField_setField_self (r : Record) (k : String) (v : JVal) :
    getField (setField r k v) k = some v := by
  induction r with
  | nil => simp [setField, getField]
  | cons kv rest ih =>
    obtain ⟨k', v'⟩ := kv
    by_cases h : k' = k
    · simp [setField, getField, h]
    · simp [setField, getField, h, ih]

theorem getField_setField_ne (r : Record) (k : String) (v : JVal) (k' : String)
    (h : k' ≠ k) : getField (setField r k v) k' = getField r k' := by
  induction r with
  | nil =>
    simp only [setField, getField]
    rw [if_neg (fun hh : k = k' => h hh.symm)]
  | cons kv rest ih =>
    obtain ⟨k₀, v₀⟩ := kv
    simp only [setField]
    by_cases h0 : k₀ = k
    · rw [if_pos h0]
      have hne : k₀ ≠ k' := fun hh => h (hh ▸ h0)
      simp only [getField]
      rw [if_neg hne, if_neg hne]
    · rw [if_neg h0]
      simp only [getField]
      by_cases h1 : k₀ = k'
      · rw [if_pos h1, if_pos h1]
      · rw [if_neg h1, if_neg h1, ih]

theorem getField_mergeObj_not_mem (b : Record) (u : Record) (k : String)
    (h : k ∉ u.map Prod.fst) : getField (mergeObj b u) k = getField b k := by
  induction u generalizing b with
  | nil => simp [mergeObj]
  | cons kv rest ih =>
    obtain ⟨k₀, v₀⟩ := kv
    simp only [List.map_cons, List.mem_cons, not_or] at h
    have step : mergeObj b ((k₀, v₀) :: rest) = mergeObj (setField b k₀ v₀) rest := rfl
    rw [step, ih _ h.2, getField_setField_ne b k₀ v₀ k (fun hh => h.1 hh)]

theorem getField_mergeObj_mem (b : Record) (u : Record) (k : String)
    (hnd : (u.map Prod.fst).Nodup) (h : k ∈ u.map Prod.fst) :
    getField (mergeObj b u) k = getField u k := by
  induction u generalizing b with
  | nil => simp at h
  | cons kv rest ih =>
    obtain ⟨k₀, v₀⟩ := kv
    have step : mergeObj b ((k₀, v₀) :: rest) = mergeObj (setField b k₀ v₀) rest := rfl
    simp only [List.map_cons, List.nodup_cons] at hnd
    simp only [List.map_cons, List.mem_cons] at h
    rcases h with h | h
    · subst h
      rw [step, getField_mergeObj_not_mem _ _ _ hnd.1, getField_setField_self]
      simp [getField]
    · have hk : k ≠ k₀ := fun hh => hnd.1 (hh ▸ h)
      rw [step, ih _ hnd.2 h]
      simp only [getField]
      rw [if_neg (fun hh : k₀ = k => hk hh.symm)]

/-! ## Shape of the per-item output fields -/

/-- Key lists a successful operation can produce; used to show the output
field names are duplicate-free and never include `error`. -/
theorem processItem_ok_keys (d : Driver) (n : Nat) (op : Op)
    (f : List (String × JVal))
    (h : (processItem d n op).2 = .ok f) :
    f.map Prod.fst = ["rows", "rowCount", "affectedRows", "insertId", "fields"] ∨
    f.map Prod.fst = ["rows", "rowCount"] ∨
    f.map Prod.fst = ["inserted", "rowCount"] ∨
    f.map Prod.fst = ["updated", "rowCount", "changedRows"] ∨
    f.map Prod.fst = ["deleted", "rowCount"] := by
  cases op <;> simp only [processItem] at h <;>
    (repeat' split at h) <;>
    first
      | (cases h; simp)
      | cases h

theorem processItem_ok_keys_nodup (d : Driver) (n : Nat) (op : Op)
    (f : List (String × JVal)) (h : (processItem d n op).2 = .ok f) :
    (f.map Prod.fst).Nodup := by
  rcases processItem_ok_keys d n op f h with h' | h' | h' | h' | h' <;>
    rw [h'] <;> decide

theorem processItem_ok_no_error_key (d : Driver) (n : Nat) (op : Op)
    (f : List (String × JVal)) (h : (processItem d n op).2 = .ok f) :
    "error" ∉ f.map Prod.fst := by
  rcases processItem_ok_keys d n op f h with h' | h' | h' | h' | h' <;>
    rw [h'] <;> decide

theorem errorFields_keys (e : JsError) :
    (errorFields e).map Prod.fst = ["error", "errorMessage", "errorCode", "errorDetails"] := rfl

theorem errorFields_keys_nodup (e : JsError) :
    ((errorFields e).map Prod.fst).Nodup := by
  rw [errorFields_keys]; decide

/-! ## Unfolding equations for the batch loop -/

theorem runItems_nil (d : Driver) (op : Op) (cof : Bool) (n : Nat) :
    runItems d op cof n [] = ([], .ok []) := rfl

theorem runItems_cons_ok (d : Driver) (op : Op) (cof : Bool) (n : Nat)
    (item : Record) (rest : List Record) (fields : List (String × JVal))
    (h : (processItem d n op).2 = .ok fields) :
    runItems d op cof n (item :: rest) =
      ((processItem d n op).1 ++ (runItems d op cof (n + (processItem d n op).1.length) rest).1,
       (runItems d op cof (n + (processItem d n op).1.length) rest).2.map
         fun rs => mergeObj item fields :: rs) := by
  simp only [runItems]
  rw [h]

theorem runItems_cons_err_cont (d : Driver) (op : Op) (n : Nat)
    (item : Record) (rest : List Record) (e : JsError)
    (h : (processItem d n op).2 = .error e) :
    runItems d op true n (item :: rest) =
      ((processItem d n op).1 ++ (runItems d op true (n + (processItem d n op).1.length) rest).1,
       (runItems d op true (n + (processItem d n op).1.length) rest).2.map
         fun rs => mergeObj item (errorFields e) :: rs) := by
  simp only [runItems]
  rw [h]
  simp

theorem runItems_cons_err_abort (d : Driver) (op : Op) (n : Nat)
    (item : Record) (rest : List Record) (e : JsError)
    (h : (processItem d n op).2 = .error e) :
    runItems d op false n (item :: rest) = ((processItem d n op).1, .error e) := by
  simp only [runItems]
  rw [h]
  simp

theorem runResults_length (d : Driver) (op : Op) (its : List Record) (n : Nat) :
    (runResults d op n its).length = its.length := by
  induction its generalizing n with
  | nil => rfl
  | cons item rest ih => simp [runResults, ih]

/-- Under continue-on-fail every batch returns successfully, one output
record per processed item, each the item's fields merged with either the
operation fields or the error fields of that item's outcome. -/
theorem runItems_cont_ok (d : Driver) (op : Op) :
    ∀ (its : List Record) (n : Nat),
      (runItems d op true n its).2 = .ok
        (List.zipWith
          (fun item res =>
            match res with
            | .ok fields => mergeObj item fields
            | .error e => mergeObj item (errorFields e))
          its (runResults d op n its)) := by
  intro its
  induction its with
  | nil => intro n; rfl
  | cons item rest ih =>
    intro n
    rcases hres : (processItem d n op).2 with e | fields
    · rw [runItems_cons_err_cont d op n item rest e hres]
      simp only [runResults, hres, ih, List.zipWith_cons_cons, Except.map]
    · rw [runItems_cons_ok d op true n item rest fields hres]
      simp only [runResults, hres, ih, List.zipWith_cons_cons, Except.map]

theorem itemsToProcess_length (items : List Record) :
    (itemsToProcess items).length = max items.length 1 := by
  cases items with
  | nil => rfl
  | cons x xs => simp [itemsToProcess, Nat.max_eq_left, Nat.succ_le_succ]

theorem forall₂_merge_zip (d : Driver) (op : Op) :
    ∀ (its : List Record) (n : Nat),
      List.Forall₂ (fun item rec => ∃ extra, rec = mergeObj item extra) its
        (List.zipWith
          (fun item res =>
            match res with
            | .ok fields => mergeObj item fields
            | .error e => mergeObj item (errorFields e))
          its (runResults d op n its)) := by
  intro its
  induction its with
  | nil => intro n; simp
  | cons item rest ih =>
    intro n
    simp only [runResults, List.zipWith_cons_cons]
    refine List.Forall₂.cons ?_ (ih _)
    rcases hres : (processItem d n op).2 with e | fields
    · exact ⟨errorFields e, rfl⟩
    · exact ⟨fields, rfl⟩

theorem execute_outcome_eq (d : Driver) (op : Op) (cof : Bool) (items : List Record) :
    (execute d op cof items).outcome = (runItems d op cof 0 (itemsToProcess items)).2 := rfl

theorem execute_trace_eq (d : Driver) (op : Op) (cof : Bool) (items : List Record) :
    (execute d op cof items).trace = (runItems d op cof 0 (itemsToProcess items)).1 := rfl

theorem itemsToProcess_of_ne_nil (items : List Record) (h : items ≠ []) :
    itemsToProcess items = items := by
  cases items with
  | nil => exact absurd rfl h
  | cons x xs => rfl

/-- Under continue-on-fail the number of output records carrying
`error: true` equals the number of failing items, provided the input items
do not already carry such a field themselves. -/
theorem countP_hasErrorTrue_zip (d : Driver) (op : Op) :
    ∀ (its : List Record) (n : Nat), (∀ item ∈ its, hasErrorTrue item = false) →
      (List.zipWith
        (fun item res =>
          match res with
          | .ok fields => mergeObj item fields
          | .error e => mergeObj item (errorFields e))
        its (runResults d op n its)).countP hasErrorTrue
      = failureCount (runResults d op n its) := by
  intro its
  induction its with
  | nil => intro n _; rfl
  | cons item rest ih =>
    intro n hclean
    simp only [runResults, List.zipWith_cons_cons]
    rcases hres : (processItem d n op).2 with e | fields
    · have hget : getField (mergeObj item (errorFields e)) "error" = some (JVal.bool true) := by
        rw [getField_mergeObj_mem item (errorFields e) "error" (errorFields_keys_nodup e)
          (by rw [errorFields_keys]; decide)]
        rfl
      have htrue : hasErrorTrue (mergeObj item (errorFields e)) = true := by
        simp [hasErrorTrue, hget]
      simp only [failureCount, List.countP_cons, htrue]
      have := ih (n + (processItem d n op).1.length)
        (fun x hx => hclean x (List.mem_cons_of_mem _ hx))
      simp only [failureCount] at this
      simp [this]
    · have hget : getField (mergeObj item fields) "error" = getField item "error" :=
        getField_mergeObj_not_mem item fields "error"
          (processItem_ok_no_error_key d n op fields hres)
      have hfalse : hasErrorTrue (mergeObj item fields) = false := by
        have := hclean item (List.mem_cons_self _ _)
        simp only [hasErrorTrue, hget]
        simpa [hasErrorTrue] using this
      simp only [failureCount, List.countP_cons, hfalse]
      have := ih (n + (processItem d n op).1.length)
        (fun x hx => hclean x (List.mem_cons_of_mem _ hx))
      simp only [failureCount] at this
      simp [this]

/-- Without continue-on-fail, once every item before the failing one has
succeeded, the run is exactly the successful items' calls plus the failing
item's calls, and the failing item's error is the result; nothing after the
failing item runs. -/
theorem runItems_abort_after_first_failure (d : Driver) (op : Op) :
    ∀ (pre : List Record) (n : Nat) (bad : Record) (post : List Record) (e : JsError),
      failureCount (runResults d op n pre) = 0 →
      (processItem d (nextCallIndex d op n pre) op).2 = .error e →
      runItems d op false n (pre ++ bad :: post) =
        (batchTrace d op n pre ++ (processItem d (nextCallIndex d op n pre) op).1, .error e) := by
  intro pre
  induction pre with
  | nil =>
    intro n bad post e _ herr
    rw [List.nil_append, runItems_cons_err_abort d op n bad post e herr]
    simp [batchTrace, nextCallIndex]
  | cons item rest ih =>
    intro n bad post e hok herr
    have hhead : ∃ fields, (processItem d n op).2 = .ok fields := by
      rcases hres : (processItem d n op).2 with e' | fields
      · exfalso
        simp [runResults, failureCount, List.countP_cons, hres] at hok
      · exact ⟨fields, rfl⟩
    obtain ⟨fields, hres⟩ := hhead
    have hok' : failureCount (runResults d op (n + (processItem d n op).1.length) rest) = 0 := by
      simp only [runResults, failureCount, List.countP_cons, hres] at hok
      simpa [failureCount] using hok
    rw [List.cons_append, runItems_cons_ok d op false n item (rest ++ bad :: post) fields hres,
      ih (n + (processItem d n op).1.length) bad post e hok' herr]
    simp [batchTrace, nextCallIndex, List.append_assoc, Except.map]

/-! ## Claims -/

/-- Claim C1: for every invocation of the executor and every operation,
under continue-on-fail the run returns records (no abort), the number of
output records equals the number of input items (or exactly one, from the
synthetic empty item, when the batch is empty), the records appear in input
order, and each record is the corresponding input item's fields merged with
further (operation- or error-specific) fields. -/
theorem C1_output_one_to_one (d : Driver) (op : Op) (items : List Record) :
    ∃ rs, (execute d op true items).outcome = .ok rs ∧
      rs.length = max items.length 1 ∧
      List.Forall₂ (fun item rec => ∃ extra, rec = mergeObj item extra)
        (itemsToProcess items) rs := by
  refine ⟨_, runItems_cont_ok d op (itemsToProcess items) 0, ?_, ?_⟩
  · rw [List.length_zipWith, runResults_length, Nat.min_self, itemsToProcess_length]
  · exact forall₂_merge_zip d op (itemsToProcess items) 0

/-- Claim C3: an Update or Delete request with an empty `where` string fails
with the node's validation error, and its trace of `pool.execute` calls is
empty: nothing was sent to the database for that item. -/
theorem C3_empty_where_fails_before_execute (d : Driver) (n : Nat)
    (t wps rf : String) (data : Except String Record) :
    processItem d n (Op.update t data "" wps rf) =
      ([], .error (mkNodeError
        "WHERE clause is required for UPDATE operation to prevent accidental updates")) ∧
    processItem d n (Op.delete t "" wps) =
      ([], .error (mkNodeError
        "WHERE clause is required for DELETE operation to prevent accidental deletion")) :=
  ⟨rfl, rfl⟩

/-- Claim C7: Insert into table `t` with data columns a=1, b=2 builds
exactly the two-placeholder INSERT statement with parameter list [1, 2] in
the data object's column order. -/
theorem C7_insert_statement_shape :
    buildInsert "t" [("a", JVal.num 1), ("b", JVal.num 2)] =
      ("INSERT INTO `t` (`a`, `b`) VALUES (?, ?)", [JVal.num 1, JVal.num 2]) := rfl

/-- Claim C10: a Select whose `where` is empty ignores `whereParams`
entirely: the parameter list is empty, the result does not depend on
`whereParams`, and the statement is the plain SELECT with only the optional
ORDER BY / LIMIT parts, no WHERE clause. -/
theorem C10_select_empty_where_ignores_params (t cols wps ob : String)
    (ra : Bool) (lim : Int) :
    (buildSelect t cols "" wps ob ra lim).2 = [] ∧
    buildSelect t cols "" wps ob ra lim = buildSelect t cols "" "" ob ra lim ∧
    (buildSelect t cols "" wps ob ra lim).1 =
      (let base := "SELECT " ++ (if cols = "" then "*" else cols) ++ " FROM `" ++ t ++ "`"
       let withOrder := if ob = "" then base else base ++ " ORDER BY " ++ ob
       if ra then withOrder
       else if lim = 0 then withOrder else withOrder ++ " LIMIT " ++ toString lim) := by
  refine ⟨rfl, rfl, ?_⟩
  simp [buildSelect]

/-- Claim C2 counterexample: a Select with returnAll=false and limit 50
passes an empty positional-parameter list while the statement text embeds
the limit value (changing the limit to 51 changes the text, with the
parameter list still empty), so the limit is interpolated into the
statement rather than passed as a parameter; and a Select columns value is
interpolated verbatim, with no quoting or escaping of the column
identifiers. -/
theorem C2_counterexample :
    buildSelect "t" "*" "" "" "" false 50 = ("SELECT * FROM `t` LIMIT 50", []) ∧
    buildSelect "t" "*" "" "" "" false 51 = ("SELECT * FROM `t` LIMIT 51", []) ∧
    buildSelect "t" "id,name" "" "" "" true 0 = ("SELECT id,name FROM `t`", []) :=
  ⟨rfl, rfl, rfl⟩

/-- Claim C2 (amended): Insert, Update and Delete statements wrap the table
identifier - and, for Insert/Update, each data column identifier - in
backticks, and pass all data values and where parameters only through the
positional-parameter list (the statement text is independent of the data
values).  A Select backticks only the table: its columns fragment is
interpolated verbatim, unquoted; its where parameters go through the
positional-parameter list, but its limit is interpolated into the statement
text as LIMIT n rather than passed as a parameter. -/
theorem C2_values_via_params (t : String) (data : Record)
    (w wps ob cols : String) (ra : Bool) (lim : Int) :
    (buildInsert t data).2 = data.map Prod.snd ∧
    (buildInsert t data).1 =
      "INSERT INTO `" ++ t ++ "` (`" ++ String.intercalate "`, `" (data.map Prod.fst) ++
        "`) VALUES (" ++ String.intercalate ", " ((data.map Prod.snd).map fun _ => "?") ++ ")" ∧
    (buildInsert t data).1 = (buildInsert t (data.map fun kv => (kv.1, JVal.null))).1 ∧
    (buildUpdate t data w wps).2 = data.map Prod.snd ++ marshalParams wps ∧
    (buildUpdate t data w wps).1 =
      "UPDATE `" ++ t ++ "` SET " ++
        String.intercalate ", " ((data.map Prod.fst).map fun c => "`" ++ c ++ "` = ?") ++
        " WHERE " ++ w ∧
    (buildUpdate t data w wps).1 =
      (buildUpdate t (data.map fun kv => (kv.1, JVal.null)) w wps).1 ∧
    (buildDelete t w wps).2 = marshalParams wps ∧
    (buildDelete t w wps).1 = "DELETE FROM `" ++ t ++ "` WHERE " ++ w ∧
    (w ≠ "" → (buildSelect t cols w wps ob ra lim).2 = marshalParams wps) ∧
    (buildSelect t cols w wps ob ra lim).1 =
      (let q0 := "SELECT " ++ (if cols = "" then "*" else cols) ++ " FROM `" ++ t ++ "`"
       let q1 := if w = "" then q0 else q0 ++ " WHERE " ++ w
       let q2 := if ob = "" then q1 else q1 ++ " ORDER BY " ++ ob
       if ra then q2 else if lim = 0 then q2 else q2 ++ " LIMIT " ++ toString lim) ∧
    (ra = false → lim ≠ 0 →
      ∃ s, (buildSelect t cols w wps ob ra lim).1 = s ++ " LIMIT " ++ toString lim) := by
  refine ⟨rfl, rfl, ?_, rfl, rfl, ?_, rfl, rfl, ?_, ?_, ?_⟩
  · simp only [buildInsert, List.map_map]
    rfl
  · simp only [buildUpdate, List.map_map]
    rfl
  · intro hw
    simp [buildSelect, hw]
  · by_cases hw : w = "" <;> simp [buildSelect, hw]
  · intro hra hlim
    refine ⟨(buildSelect t cols w wps ob true lim).1, ?_⟩
    simp [buildSelect, hra, hlim]

theorem C2_witness :
    (buildSelect "t" "c" "id = ?" "5" "" false 7).2 = marshalParams "5" ∧
    (∃ s, (buildSelect "t" "c" "id = ?" "5" "" false 7).1 =
      s ++ " LIMIT " ++ toString (7 : Int)) := by
  obtain ⟨-, -, -, -, -, -, -, -, h9, -, h11⟩ :=
    C2_values_via_params "t" [("a", JVal.num 1)] "id = ?" "5" "" "c" false 7
  exact ⟨h9 (by decide), h11 rfl (by decide)⟩

/-- Claim C4 (amended): for a batch with exactly one failing item, under
continue-on-fail the executor returns one record per item with exactly one
record carrying `error: true` - provided no input item already carries an
`error: true` field of its own, since on success such a field passes
through unchanged; without continue-on-fail the run aborts at the first
failure with that item's error, issues no statements for later items, and
the pool is still closed. -/
theorem C4_single_failure (d : Driver) (op : Op) :
    (∀ items : List Record, items ≠ [] →
      (∀ item ∈ items, hasErrorTrue item = false) →
      failureCount (runResults d op 0 items) = 1 →
      ∃ rs, (execute d op true items).outcome = .ok rs ∧
        rs.length = items.length ∧ rs.countP hasErrorTrue = 1 ∧
        (execute d op true items).poolClosed = true) ∧
    (∀ (pre : List Record) (bad : Record) (post : List Record) (e : JsError),
      failureCount (runResults d op 0 pre) = 0 →
      (processItem d (nextCallIndex d op 0 pre) op).2 = .error e →
      (execute d op false (pre ++ bad :: post)).outcome = .error e ∧
      (execute d op false (pre ++ bad :: post)).trace =
        batchTrace d op 0 pre ++ (processItem d (nextCallIndex d op 0 pre) op).1 ∧
      (execute d op false (pre ++ bad :: post)).poolClosed = true) := by
  constructor
  · intro items hne hclean hfail
    refine ⟨List.zipWith
        (fun item res =>
          match res with
          | .ok fields => mergeObj item fields
          | .error e => mergeObj item (errorFields e))
        items (runResults d op 0 items), ?_, ?_, ?_, rfl⟩
    · rw [execute_outcome_eq, itemsToProcess_of_ne_nil items hne]
      exact runItems_cont_ok d op items 0
    · rw [List.length_zipWith, runResults_length, Nat.min_self]
    · rw [countP_hasErrorTrue_zip d op items 0 hclean]
      exact hfail
  · intro pre bad post e h0 herr
    have hne : (pre ++ bad :: post) ≠ [] := by
      cases pre <;> simp
    have habort := runItems_abort_after_first_failure d op pre 0 bad post e h0 herr
    refine ⟨?_, ?_, rfl⟩
    · rw [execute_outcome_eq, itemsToProcess_of_ne_nil _ hne, habort]
    · rw [execute_trace_eq, itemsToProcess_of_ne_nil _ hne, habort]

/-- Claim C4 counterexample: a two-item batch whose first item already
holds an `error: true` field and whose second item is the only failing one
(under continue-on-fail) yields two records carrying `error: true`, not
exactly one. -/
theorem C4_counterexample :
    failureCount (runResults C4ceDriver (Op.delete "t" "id = ?" "5") 0 C4ceItems) = 1 ∧
    (execute C4ceDriver (Op.delete "t" "id = ?" "5") true C4ceItems).outcome.map
      (List.countP hasErrorTrue) = Except.ok 2 :=
  ⟨rfl, rfl⟩

theorem C4_witness :
    (∃ rs, (execute C4wDriver (Op.delete "t" "id = ?" "5") true [[], []]).outcome = .ok rs ∧
      rs.length = ([[], []] : List Record).length ∧ rs.countP hasErrorTrue = 1 ∧
      (execute C4wDriver (Op.delete "t" "id = ?" "5") true [[], []]).poolClosed = true) ∧
    ((execute C4wDriver (Op.delete "t" "id = ?" "5") false ([] ++ [] :: [])).outcome =
        .error ⟨"dup", none, "Error: dup"⟩ ∧
      (execute C4wDriver (Op.delete "t" "id = ?" "5") false ([] ++ [] :: [])).trace =
        batchTrace C4wDriver (Op.delete "t" "id = ?" "5") 0 [] ++
          (processItem C4wDriver (nextCallIndex C4wDriver (Op.delete "t" "id = ?" "5") 0 [])
            (Op.delete "t" "id = ?" "5")).1 ∧
      (execute C4wDriver (Op.delete "t" "id = ?" "5") false ([] ++ [] :: [])).poolClosed = true) := by
  constructor
  · exact (C4_single_failure C4wDriver (Op.delete "t" "id = ?" "5")).1 [[], []]
      (List.cons_ne_nil _ _) (by decide) rfl
  · exact (C4_single_failure C4wDriver (Op.delete "t" "id = ?" "5")).2 [] [] []
      ⟨"dup", none, "Error: dup"⟩ rfl rfl

/-- Claim C5: when the primary Insert or Update statement succeeds with an
OkPacket and the follow-up SELECT fails, the failure is swallowed and the
item still succeeds, carrying the primary write result: insertId and
affectedRows for Insert, affectedRows (as rowCount) and changedRows with an
empty `updated` list for Update. -/
theorem C5_fetch_failure_nonfatal (d : Driver) (n : Nat) (t rf wc wps : String)
    (dataObj : Record) (a c i : Int) (fm : Option (List FieldMeta)) (e e2 : JsError) :
    (d n (buildInsert t dataObj).1 (buildInsert t dataObj).2 = .ok ⟨.okPacket a c i, fm⟩ →
     (normReturnFields rf ≠ "*" ∨ i ≠ 0) →
     d (n + 1) (insertFetchStmt t (normReturnFields rf)) [JVal.num i] = .error e →
     (processItem d n (Op.insert t (.ok dataObj) rf)).2 =
       .ok [("inserted", .obj [("insertId", .num i), ("affectedRows", .num a)]),
            ("rowCount", .num a)]) ∧
    (wc ≠ "" →
     d n (buildUpdate t dataObj wc wps).1 (buildUpdate t dataObj wc wps).2 =
       .ok ⟨.okPacket a c i, fm⟩ →
     0 < a →
     d (n + 1) (updateFetchStmt t (normReturnFields rf) wc) (marshalParams wps) = .error e2 →
     (processItem d n (Op.update t (.ok dataObj) wc wps rf)).2 =
       .ok [("updated", .arr []), ("rowCount", .num a), ("changedRows", .num c)]) := by
  constructor
  · intro h1 h2 h3
    have hcond : (normReturnFields rf != "*" || i != 0) = true := by
      simp only [Bool.or_eq_true, bne_iff_ne]
      exact h2
    simp only [processItem, h1, insertIdVal, affectedRowsVal, jsTruthy, hcond, if_true, h3]
  · intro hw h1 ha h4
    simp only [processItem, if_neg hw, h1]
    rw [if_pos ha]
    simp only [h4]

theorem C5_witness :
    (processItem C5wDriver 0 (Op.insert "t" (.ok [("a", JVal.num 1)]) "*")).2 =
      .ok [("inserted", .obj [("insertId", .num 7), ("affectedRows", .num 2)]),
           ("rowCount", .num 2)] ∧
    (processItem C5wDriver 0 (Op.update "t" (.ok [("a", JVal.num 1)]) "id = ?" "7" "*")).2 =
      .ok [("updated", .arr []), ("rowCount", .num 2), ("changedRows", .num 1)] := by
  have h := C5_fetch_failure_nonfatal C5wDriver 0 "t" "*" "id = ?" "7" [("a", JVal.num 1)]
    2 1 7 none ⟨"read-back failed", none, "Error: read-back failed"⟩
    ⟨"read-back failed", none, "Error: read-back failed"⟩
  exact ⟨h.1 rfl (Or.inr (by decide)) rfl, h.2 (by decide) rfl (by decide) rfl⟩

/-- Claim C6 counterexample: the executor's credential resolution succeeds
(and the pool is then created) for credentials whose `database` is absent:
only the host is checked, so missing database/user/password does not fail
before a connection pool is opened. -/
theorem C6_counterexample :
    resolveExecuteCredentials none (some C6ceCreds) =
      .ok ⟨"h", 3306, none, some "u", some "p", false, 10000⟩ ∧
    (executeNode C6ceDriver (Op.delete "t" "id = ?" "1") false none
      (some C6ceCreds) []).poolCreated = true :=
  ⟨rfl, rfl⟩

/-- Claim C6 (amended): the executor fails before creating the pool exactly
when the credentials are absent or the host is falsy (database, user and
password are not checked there); the credential tester, in contrast,
returns its failure result without attempting a connection whenever any of
host, database, user or password is absent. -/
theorem C6_required_credentials (st : Option Int) (c : Credentials) (drv : TestDriver) :
    exceptOk (resolveExecuteCredentials st none) = false ∧
    (jsFalsyStr c.host = true → exceptOk (resolveExecuteCredentials st (some c)) = false) ∧
    (jsFalsyStr c.host = false → exceptOk (resolveExecuteCredentials st (some c)) = true) ∧
    ((jsFalsyStr c.host || jsFalsyStr c.database || jsFalsyStr c.user ||
        jsFalsyStr c.password) = true →
      credTest c drv =
        ⟨⟨false, "Host, database, user, and password are required"⟩, false, false⟩) := by
  refine ⟨rfl, ?_, ?_, ?_⟩
  · intro h; simp [resolveExecuteCredentials, h, exceptOk]
  · intro h; simp [resolveExecuteCredentials, h, exceptOk]
  · intro h; simp [credTest, h]

theorem C6_witness :
    exceptOk (resolveExecuteCredentials none (some C6wCreds)) = false ∧
    credTest C6wCreds (TestDriver.queryOk []) =
      ⟨⟨false, "Host, database, user, and password are required"⟩, false, false⟩ := by
  have h := C6_required_credentials none C6wCreds (TestDriver.queryOk [])
  exact ⟨h.2.1 rfl, h.2.2.2 rfl⟩

/-- Claim C8: a credential test whose driver error carries the code
ER_ACCESS_DENIED_ERROR (whether connecting or running the liveness query
failed) returns failure with the authentication-failure message, which is
not the generic connection-failed message for that error. -/
theorem C8_access_denied_classified (data : Credentials) (e : JsError)
    (hvalid : (jsFalsyStr data.host || jsFalsyStr data.database || jsFalsyStr data.user ||
      jsFalsyStr data.password) = false)
    (hcode : e.code = some "ER_ACCESS_DENIED_ERROR") :
    (credTest data (.connectFail e)).result =
      ⟨false, "Authentication failed. Invalid username or password."⟩ ∧
    (credTest data (.queryFail e)).result =
      ⟨false, "Authentication failed. Invalid username or password."⟩ ∧
    (credTest data (.connectFail e)).result.message ≠
      "Connection failed: " ++ (if e.message = "" then "Unknown error" else e.message) := by
  have hclass : classifyTestError data e =
      ⟨false, "Authentication failed. Invalid username or password."⟩ := by
    simp [classifyTestError, hcode]
  have hc : (credTest data (.connectFail e)).result =
      ⟨false, "Authentication failed. Invalid username or password."⟩ := by
    simp [credTest, hvalid, hclass]
  have hq : (credTest data (.queryFail e)).result =
      ⟨false, "Authentication failed. Invalid username or password."⟩ := by
    simp [credTest, hvalid, hclass]
  refine ⟨hc, hq, ?_⟩
  rw [hc]
  intro h
  have h2 := congrArg String.data h
  rw [String.data_append] at h2
  simp at h2

theorem C8_witness :
    (credTest C8wData (.connectFail C8wErr)).result =
      ⟨false, "Authentication failed. Invalid username or password."⟩ ∧
    (credTest C8wData (.queryFail C8wErr)).result =
      ⟨false, "Authentication failed. Invalid username or password."⟩ := by
  have h := C8_access_denied_classified C8wData C8wErr rfl rfl
  exact ⟨h.1, h.2.1⟩

/-- Claim C9: for every operation and input item, the output record is the
item's fields merged with exactly the operation fields computed for that
item - or, on failure under continue-on-fail, the error handler's fields;
on a key collision the output value at that key is the operation's computed
value (the item's original value for that key is lost), and every other
item field passes through unchanged. -/
theorem C9_op_fields_shadow_item_fields (d : Driver) (op : Op) (item : Record) :
    (∀ fields, (processItem d 0 op).2 = .ok fields →
      (execute d op true [item]).outcome = .ok [mergeObj item fields] ∧
      (∀ k, k ∈ fields.map Prod.fst →
        getField (mergeObj item fields) k = getField fields k) ∧
      (∀ k, k ∉ fields.map Prod.fst →
        getField (mergeObj item fields) k = getField item k)) ∧
    (∀ e, (processItem d 0 op).2 = .error e →
      (execute d op true [item]).outcome = .ok [mergeObj item (errorFields e)] ∧
      (∀ k, k ∈ (errorFields e).map Prod.fst →
        getField (mergeObj item (errorFields e)) k = getField (errorFields e) k) ∧
      (∀ k, k ∉ (errorFields e).map Prod.fst →
        getField (mergeObj item (errorFields e)) k = getField item k)) := by
  constructor
  · intro fields hres
    refine ⟨?_, ?_, ?_⟩
    · rw [execute_outcome_eq, itemsToProcess_of_ne_nil [item] (List.cons_ne_nil _ _),
        runItems_cont_ok d op [item] 0]
      simp [runResults, hres]
    · intro k hk
      exact getField_mergeObj_mem item fields k (processItem_ok_keys_nodup d 0 op fields hres) hk
    · intro k hk
      exact getField_mergeObj_not_mem item fields k hk
  · intro e hres
    refine ⟨?_, ?_, ?_⟩
    · rw [execute_outcome_eq, itemsToProcess_of_ne_nil [item] (List.cons_ne_nil _ _),
        runItems_cont_ok d op [item] 0]
      simp [runResults, hres]
    · intro k hk
      exact getField_mergeObj_mem item (errorFields e) k (errorFields_keys_nodup e) hk
    · intro k hk
      exact getField_mergeObj_not_mem item (errorFields e) k hk

theorem C9_witness :
    ((execute C9wDriver (Op.delete "t" "id = ?" "5") true
        [[("rowCount", JVal.num 99), ("name", JVal.str "x")]]).outcome =
      .ok [mergeObj [("rowCount", JVal.num 99), ("name", JVal.str "x")]
            [("deleted", JVal.bool true), ("rowCount", JVal.num 1)]] ∧
      (∀ k, k ∈ ([("deleted", JVal.bool true), ("rowCount", JVal.num 1)].map Prod.fst) →
        getField (mergeObj [("rowCount", JVal.num 99), ("name", JVal.str "x")]
          [("deleted", JVal.bool true), ("rowCount", JVal.num 1)]) k =
          getField [("deleted", JVal.bool true), ("rowCount", JVal.num 1)] k) ∧
      (∀ k, k ∉ ([("deleted", JVal.bool true), ("rowCount", JVal.num 1)].map Prod.fst) →
        getField (mergeObj [("rowCount", JVal.num 99), ("name", JVal.str "x")]
          [("deleted", JVal.bool true), ("rowCount", JVal.num 1)]) k =
          getField [("rowCount", JVal.num 99), ("name", JVal.str "x")] k)) ∧
    getField (mergeObj [("rowCount", JVal.num 99), ("name", JVal.str "x")]
      [("deleted", JVal.bool true), ("rowCount", JVal.num 1)]) "rowCount" =
      some (JVal.num 1) ∧
    getField (mergeObj [("rowCount", JVal.num 99), ("name", JVal.str "x")]
      [("deleted", JVal.bool true), ("rowCount", JVal.num 1)]) "name" =
      some (JVal.str "x") := by
  have h := (C9_op_fields_shadow_item_fields C9wDriver (Op.delete "t" "id = ?" "5")
    [("rowCount", JVal.num 99), ("name", JVal.str "x")]).1
    [("deleted", JVal.bool true), ("rowCount", JVal.num 1)] rfl
  exact ⟨h, rfl, rfl⟩

end MySQLNode
